import Mathlib

/-!
Verification development for the electric grid model builder in
`fledge/electric_grid_models.py`.

The Python module defines two classes:

* `ElectricGridIndex` — derives dimension counts, flattened node/branch
  tables and name→position-list dictionaries from the grid data.
* `ElectricGridModel` — allocates sparse matrices and accumulates, for
  every line, per-element admittance/incidence sub-matrices into them.

This file gives a shallow embedding of that module: pandas tables become
lists of records, numpy float/complex arithmetic becomes exact rational
arithmetic (`ℚ` and a pair type `CQ` for complex numbers), sparse
`dok_matrix` objects become total functions `Nat → Nat → α` built from
pointwise additive updates, and the Python exceptions raised during
construction (`IndexError` from numpy fancy indexing, `LinAlgError` from
`np.linalg.inv`, `KeyError` from dictionary lookups) become an explicit
error type threaded through `Except`.
-/

set_option allowUnsafeReducibility true

attribute [local semireducible] Rat.add Rat.mul Rat.inv Rat.sub

namespace Fledge

/-- Complex numbers with rational components, modelling the exact values of
the numpy complex arithmetic used in the line admittance computation. -/
structure CQ where
  re : ℚ
  im : ℚ
deriving DecidableEq, Repr

instance : Zero CQ := ⟨⟨0, 0⟩⟩

instance : One CQ := ⟨⟨1, 0⟩⟩

instance : Add CQ := ⟨fun a b => ⟨a.re + b.re, a.im + b.im⟩⟩

instance : Neg CQ := ⟨fun a => ⟨-a.re, -a.im⟩⟩

instance : Mul CQ := ⟨fun a b => ⟨a.re * b.re - a.im * b.im, a.re * b.im + a.im * b.re⟩⟩

/-- Complex reciprocal (the value `np.linalg.inv` produces for a 1×1 matrix;
also used to scale the adjugate for larger matrices). -/
def CQ.inv (z : CQ) : CQ :=
  ⟨z.re / (z.re ^ 2 + z.im ^ 2), -z.im / (z.re ^ 2 + z.im ^ 2)⟩

theorem CQ.ext2 {a b : CQ} (h1 : a.re = b.re) (h2 : a.im = b.im) : a = b := by
  cases a; cases b; cases h1; cases h2; rfl

theorem CQ.zeroAdd (a : CQ) : 0 + a = a :=
  CQ.ext2 (zero_add a.re) (zero_add a.im)

theorem CQ.addZero (a : CQ) : a + 0 = a :=
  CQ.ext2 (add_zero a.re) (add_zero a.im)

theorem CQ.addAssoc (a b c : CQ) : a + b + c = a + (b + c) :=
  CQ.ext2 (add_assoc a.re b.re c.re) (add_assoc a.im b.im c.im)

/-! ### Grid data

Record types for the rows of the tables consumed from the data-access
layer (`fledge.database_interface.ElectricGridData`).  Phase connectivity
flags are kept as raw naturals because the source both sums them
(`.sum().sum()`) and compares them against 1 (`== 1`). -/

/-- A row of `electric_grid_nodes`. -/
structure NodeData where
  node_name : String
  is_phase_1_connected : Nat
  is_phase_2_connected : Nat
  is_phase_3_connected : Nat
deriving DecidableEq, Repr

/-- A row of `electric_grid_lines`. -/
structure LineData where
  line_name : String
  line_type : String
  length : ℚ
  node_1_name : String
  node_2_name : String
  n_phases : Nat
  is_phase_1_connected : Nat
  is_phase_2_connected : Nat
  is_phase_3_connected : Nat
deriving DecidableEq, Repr

/-- A row of `electric_grid_transformers`. Only the columns the module
reads (`winding`, `transformer_name`, the phase flags) are modelled. -/
structure TransformerData where
  transformer_name : String
  winding : Nat
  is_phase_1_connected : Nat
  is_phase_2_connected : Nat
  is_phase_3_connected : Nat
deriving DecidableEq, Repr

/-- A row of `electric_grid_line_types_matrices`: one flattened
upper-triangular entry of the r/x/c matrices of one line type. -/
structure LineTypeMatrixRow where
  line_type : String
  r : ℚ
  x : ℚ
  c : ℚ
deriving DecidableEq, Repr

/-- A row of `electric_grid_loads`. -/
structure LoadData where
  load_name : String
  node_name : String
  is_phase_1_connected : Nat
  is_phase_2_connected : Nat
  is_phase_3_connected : Nat
deriving DecidableEq, Repr

/-- The grid data handed to the constructors.  `source_node_name` models
`electric_grid_data.electric_grids['source_node_name'][0]`. -/
structure ElectricGridData where
  electric_grid_nodes : List NodeData
  electric_grid_lines : List LineData
  electric_grid_line_types_matrices : List LineTypeMatrixRow
  electric_grid_transformers : List TransformerData
  electric_grid_loads : List LoadData
  source_node_name : String
deriving DecidableEq, Repr

/-! ### Python dictionaries

The index dictionaries are modelled as association lists in insertion
order.  `dictSet` is Python `d[k] = v` (overwrite in place, else append),
`dictGet` is `d[k]` returning `none` where Python would raise `KeyError`. -/

def dictSet {α : Type} (m : List (String × α)) (k : String) (v : α) : List (String × α) :=
  if (m.find? (fun p => p.1 == k)).isSome then
    m.map (fun p => if p.1 == k then (k, v) else p)
  else
    m ++ [(k, v)]

def dictGet {α : Type} (m : List (String × α)) (k : String) : Option α :=
  (m.find? (fun p => p.1 == k)).map (fun p => p.2)

/-- Positions of the `True` entries of a boolean mask, in ascending order,
counting from `k`:  `np.nonzero(mask)[0].tolist()` is `maskPositionsFrom 0`. -/
def maskPositionsFrom (k : Nat) : List Bool → List Nat
  | [] => []
  | b :: bs => (if b then [k] else []) ++ maskPositionsFrom (k + 1) bs

/-- `np.nonzero(mask)[0].tolist()` for a boolean column `mask`. -/
def nonzeroPositions (mask : List Bool) : List Nat :=
  maskPositionsFrom 0 mask

/-! ### ElectricGridIndex construction -/

/-- `electric_grid_transformers.loc[transformers['winding'] == 1, :]`. -/
def oneWinding (ts : List TransformerData) : List TransformerData :=
  ts.filter (fun t => t.winding == 1)

/-- `electric_grid_nodes.loc[:, [flags]].sum().sum()` (column sums, then total). -/
def nodeDimensionOf (ns : List NodeData) : Nat :=
  (ns.map (fun n => n.is_phase_1_connected)).sum
    + (ns.map (fun n => n.is_phase_2_connected)).sum
    + (ns.map (fun n => n.is_phase_3_connected)).sum

/-- `electric_grid_lines.loc[:, [flags]].sum().sum()`. -/
def lineDimensionOf (ls : List LineData) : Nat :=
  (ls.map (fun l => l.is_phase_1_connected)).sum
    + (ls.map (fun l => l.is_phase_2_connected)).sum
    + (ls.map (fun l => l.is_phase_3_connected)).sum

/-- `electric_grid_transformers_one_winding.loc[:, [flags]].sum().sum()`. -/
def transformerDimensionOf (ts1 : List TransformerData) : Nat :=
  (ts1.map (fun t => t.is_phase_1_connected)).sum
    + (ts1.map (fun t => t.is_phase_2_connected)).sum
    + (ts1.map (fun t => t.is_phase_3_connected)).sum

/-- A row of the flattened `nodes` data frame. -/
structure NodeRow where
  node_name : String
  phase : String
  node_type : String
deriving DecidableEq, Repr

/-- A row of the flattened `branches` data frame. -/
structure BranchRow where
  branch_name : String
  phase : String
  branch_type : String
deriving DecidableEq, Repr

/-- The `node_name` column: node names with phase 1 connected, then those
with phase 2 connected, then those with phase 3 connected. -/
def nodeNameColumn (ns : List NodeData) : List String :=
  (ns.filter (fun n => n.is_phase_1_connected == 1)).map (fun n => n.node_name)
    ++ (ns.filter (fun n => n.is_phase_2_connected == 1)).map (fun n => n.node_name)
    ++ (ns.filter (fun n => n.is_phase_3_connected == 1)).map (fun n => n.node_name)

/-- The `phase` column: `np.repeat` of the phase labels, with the repeat
counts `sum(flags == 1)`. -/
def nodePhaseColumn (ns : List NodeData) : List String :=
  List.replicate (ns.countP (fun n => n.is_phase_1_connected == 1)) "1"
    ++ List.replicate (ns.countP (fun n => n.is_phase_2_connected == 1)) "2"
    ++ List.replicate (ns.countP (fun n => n.is_phase_3_connected == 1)) "3"

/-- The flattened `nodes` data frame: the `node_name` and `phase` columns
zipped, with `node_type` `'source'` exactly on the rows whose name equals
the grid's source node name and `'no_source'` elsewhere. -/
def nodesTableOf (ns : List NodeData) (src : String) : List NodeRow :=
  ((nodeNameColumn ns).zip (nodePhaseColumn ns)).map
    (fun p => ⟨p.1, p.2, if p.1 == src then "source" else "no_source"⟩)

/-- The `branch_name` column: line names per connected phase (1, 2, 3),
then one-winding transformer names per connected phase (1, 2, 3). -/
def branchNameColumn (ls : List LineData) (ts1 : List TransformerData) : List String :=
  (ls.filter (fun l => l.is_phase_1_connected == 1)).map (fun l => l.line_name)
    ++ (ls.filter (fun l => l.is_phase_2_connected == 1)).map (fun l => l.line_name)
    ++ (ls.filter (fun l => l.is_phase_3_connected == 1)).map (fun l => l.line_name)
    ++ (ts1.filter (fun t => t.is_phase_1_connected == 1)).map (fun t => t.transformer_name)
    ++ (ts1.filter (fun t => t.is_phase_2_connected == 1)).map (fun t => t.transformer_name)
    ++ (ts1.filter (fun t => t.is_phase_3_connected == 1)).map (fun t => t.transformer_name)

/-- The branch `phase` column. -/
def branchPhaseColumn (ls : List LineData) (ts1 : List TransformerData) : List String :=
  List.replicate (ls.countP (fun l => l.is_phase_1_connected == 1)) "1"
    ++ List.replicate (ls.countP (fun l => l.is_phase_2_connected == 1)) "2"
    ++ List.replicate (ls.countP (fun l => l.is_phase_3_connected == 1)) "3"
    ++ List.replicate (ts1.countP (fun t => t.is_phase_1_connected == 1)) "1"
    ++ List.replicate (ts1.countP (fun t => t.is_phase_2_connected == 1)) "2"
    ++ List.replicate (ts1.countP (fun t => t.is_phase_3_connected == 1)) "3"

/-- The `branch_type` column: `'line'` repeated `line_dimension` times,
then `'transformer'` repeated `transformer_dimension` times. -/
def branchTypeColumn (ls : List LineData) (ts1 : List TransformerData) : List String :=
  List.replicate (lineDimensionOf ls) "line"
    ++ List.replicate (transformerDimensionOf ts1) "transformer"

/-- The flattened `branches` data frame (the three columns zipped). -/
def branchesTableOf (ls : List LineData) (ts1 : List TransformerData) : List BranchRow :=
  (((branchNameColumn ls ts1).zip (branchPhaseColumn ls ts1)).zip (branchTypeColumn ls ts1)).map
    (fun p => ⟨p.1.1, p.1.2, p.2⟩)

/-- Position list of the node table rows whose `node_name` equals `nm`. -/
def nodeNamePositionsOf (ns : List NodeData) (src : String) (nm : String) : List Nat :=
  nonzeroPositions ((nodesTableOf ns src).map (fun r => r.node_name == nm))

/-- Position list of the node table rows whose `phase` equals `p`. -/
def nodePhasePositionsOf (ns : List NodeData) (src : String) (p : String) : List Nat :=
  nonzeroPositions ((nodesTableOf ns src).map (fun r => r.phase == p))

/-- Position list of the branch table rows with the given name and type. -/
def branchNameTypePositionsOf (ls : List LineData) (ts1 : List TransformerData)
    (nm tp : String) : List Nat :=
  nonzeroPositions
    ((branchesTableOf ls ts1).map (fun r => r.branch_name == nm && r.branch_type == tp))

/-- Position list of the branch table rows with the given type. -/
def branchTypePositionsOf (ls : List LineData) (ts1 : List TransformerData)
    (tp : String) : List Nat :=
  nonzeroPositions ((branchesTableOf ls ts1).map (fun r => r.branch_type == tp))

/-- `self.node_by_node_name`: `dict.fromkeys(node_names)` followed by a loop
assigning every key its position list.  Since the loop runs over the very
key list of the `fromkeys`, every value is assigned, so the dictionary is
built here directly with the final values. -/
def nodeByNodeNameDict (ns : List NodeData) (src : String) : List (String × List Nat) :=
  (ns.map (fun n => n.node_name)).foldl
    (fun m nm => dictSet m nm (nodeNamePositionsOf ns src nm)) []

/-- `self.node_by_phase`. -/
def nodeByPhaseDict (ns : List NodeData) (src : String) : List (String × List Nat) :=
  (["1", "2", "3"]).foldl (fun m p => dictSet m p (nodePhasePositionsOf ns src p)) []

/-- `self.node_by_node_type`. -/
def nodeByNodeTypeDict (ns : List NodeData) (src : String) : List (String × List Nat) :=
  (["source", "no_source"]).foldl
    (fun m t => dictSet m t (nonzeroPositions ((nodesTableOf ns src).map (fun r => r.node_type == t)))) []

/-- The phase labels a load selects (`np.where([flags], ['1','2','3'], [None])`);
`none` stands for Python `None`, which matches no phase string. -/
def loadPhaseLabels (ld : LoadData) : List (Option String) :=
  [if ld.is_phase_1_connected == 1 then some "1" else none,
   if ld.is_phase_2_connected == 1 then some "2" else none,
   if ld.is_phase_3_connected == 1 then some "3" else none]

/-- `self.node_by_load_name`: rows of the node table whose name is the
load's node and whose phase is among the load's connected phases.  The
`.at[load_name, …]` lookups resolve the (name-indexed) load row. -/
def nodeByLoadNameDict (ns : List NodeData) (src : String) (lds : List LoadData) :
    List (String × List Nat) :=
  (lds.map (fun ld => ld.load_name)).foldl
    (fun m nm =>
      dictSet m nm
        (match lds.find? (fun ld => ld.load_name == nm) with
         | none => []
         | some ld =>
             nonzeroPositions
               ((nodesTableOf ns src).map
                 (fun r => r.node_name == ld.node_name
                   && (loadPhaseLabels ld).contains (some r.phase)))))
    []

/-- `self.branch_by_line_name`: the line-name loop fills every line key;
the transformer-name loop (source lines 292–300) then assigns the
transformer position lists INTO THIS SAME dictionary — the source writes
`self.branch_by_line_name[transformer_name] = …` under the comment
`# Index by transformer name.`. -/
def branchByLineNameDict (ls : List LineData) (ts1 : List TransformerData) :
    List (String × List Nat) :=
  let afterLines :=
    (ls.map (fun l => l.line_name)).foldl
      (fun m nm => dictSet m nm (branchNameTypePositionsOf ls ts1 nm "line")) []
  (ts1.map (fun t => t.transformer_name)).foldl
    (fun m nm => dictSet m nm (branchNameTypePositionsOf ls ts1 nm "transformer")) afterLines

/-- `self.branch_by_transformer_name`: `dict.fromkeys(transformer_names)`
(all values `None`); the loop that was meant to fill it assigns into
`branch_by_line_name` instead, so every value stays `None`. -/
def branchByTransformerNameDict (ts1 : List TransformerData) :
    List (String × Option (List Nat)) :=
  (ts1.map (fun t => t.transformer_name)).foldl (fun m nm => dictSet m nm none) []

/-- `self.branch_by_phase`. -/
def branchByPhaseDict (ls : List LineData) (ts1 : List TransformerData) :
    List (String × List Nat) :=
  (["1", "2", "3"]).foldl
    (fun m p =>
      dictSet m p (nonzeroPositions ((branchesTableOf ls ts1).map (fun r => r.phase == p)))) []

/-- `self.load_by_load_name = dict(zip(load_names, range(len(load_names))))`. -/
def loadByLoadNameDict (lds : List LoadData) : List (String × Nat) :=
  (lds.map (fun ld => ld.load_name)).enum.foldl (fun m p => dictSet m p.2 p.1) []

/-- The constructed `ElectricGridIndex`. -/
structure ElectricGridIndex where
  node_dimension : Nat
  branch_dimension : Nat
  load_dimension : Nat
  nodes : List NodeRow
  branches : List BranchRow
  node_by_node_name : List (String × List Nat)
  node_by_phase : List (String × List Nat)
  node_by_node_type : List (String × List Nat)
  node_by_load_name : List (String × List Nat)
  branch_by_line_name : List (String × List Nat)
  branch_by_transformer_name : List (String × Option (List Nat))
  branch_by_phase : List (String × List Nat)
  load_by_load_name : List (String × Nat)
deriving Repr

/-- `ElectricGridIndex.__init__`. -/
def buildIndex (d : ElectricGridData) : ElectricGridIndex :=
  { node_dimension := nodeDimensionOf d.electric_grid_nodes
    branch_dimension :=
      lineDimensionOf d.electric_grid_lines
        + transformerDimensionOf (oneWinding d.electric_grid_transformers)
    load_dimension := d.electric_grid_loads.length
    nodes := nodesTableOf d.electric_grid_nodes d.source_node_name
    branches := branchesTableOf d.electric_grid_lines (oneWinding d.electric_grid_transformers)
    node_by_node_name := nodeByNodeNameDict d.electric_grid_nodes d.source_node_name
    node_by_phase := nodeByPhaseDict d.electric_grid_nodes d.source_node_name
    node_by_node_type := nodeByNodeTypeDict d.electric_grid_nodes d.source_node_name
    node_by_load_name :=
      nodeByLoadNameDict d.electric_grid_nodes d.source_node_name d.electric_grid_loads
    branch_by_line_name :=
      branchByLineNameDict d.electric_grid_lines (oneWinding d.electric_grid_transformers)
    branch_by_transformer_name :=
      branchByTransformerNameDict (oneWinding d.electric_grid_transformers)
    branch_by_phase :=
      branchByPhaseDict d.electric_grid_lines (oneWinding d.electric_grid_transformers)
    load_by_load_name := loadByLoadNameDict d.electric_grid_loads }

/-! ### Small complex matrices

`np.linalg.inv` on the (at most 3×3) expanded line matrices.  Matrices are
lists of rows; the determinant is computed by Laplace expansion along the
first row and the inverse as the adjugate scaled by the reciprocal of the
determinant, which for a nonsingular matrix is exactly the value
`np.linalg.inv` approximates.  `np.linalg.inv` raises `LinAlgError` on a
singular input; here that becomes an explicit error value. -/

/-- Errors raised during `ElectricGridModel.__init__`:  numpy `IndexError`
(with the offending index and the axis size), `numpy.linalg.LinAlgError`
for a singular matrix, and Python `KeyError` (with the missing key) from
the index dictionary lookups. -/
inductive BuildErr where
  | indexOutOfBounds (index : Nat) (size : Nat)
  | singularMatrix
  | keyError (key : String)
deriving DecidableEq, Repr

/-- `(-1)^k` as a complex scalar. -/
def cofSign (k : Nat) : CQ :=
  if k % 2 = 0 then 1 else -1

/-- Laplace expansion of the determinant along the first row, with the
matrix dimension as the structural recursion measure. -/
def detN : Nat → List (List CQ) → CQ
  | 0, _ => 1
  | n + 1, m =>
    ((List.range (n + 1)).map
        (fun j =>
          cofSign j * (m.headD []).getD j 0
            * detN n (m.tail.map (fun row => row.eraseIdx j)))).foldl (· + ·) 0

/-- Determinant of a square matrix. -/
def detL (m : List (List CQ)) : CQ :=
  detN m.length m

/-- The minor obtained by deleting row `i` and column `j`. -/
def matMinor (m : List (List CQ)) (i j : Nat) : List (List CQ) :=
  (m.eraseIdx i).map (fun row => row.eraseIdx j)

/-- `np.linalg.inv`: the exact inverse via the adjugate, or `LinAlgError`
when the determinant vanishes. -/
def matInv (m : List (List CQ)) : Except BuildErr (List (List CQ)) :=
  let d := detL m
  if d = 0 then .error .singularMatrix
  else
    .ok ((List.range m.length).map
      (fun i => (List.range m.length).map
        (fun j => cofSign (i + j) * detL (matMinor m j i) * d.inv)))

/-- Entrywise sum of two matrices. -/
def addM (a b : List (List CQ)) : List (List CQ) :=
  List.zipWith (List.zipWith (· + ·)) a b

/-- Entrywise negation. -/
def negM (a : List (List CQ)) : List (List CQ) :=
  a.map (fun row => row.map (fun z => -z))

/-- A complex matrix scaled by a real (rational) factor. -/
def scaleM (q : ℚ) (a : List (List CQ)) : List (List CQ) :=
  a.map (fun row => row.map (fun z => ⟨z.re * q, z.im * q⟩))

/-! ### ElectricGridModel construction -/

/-- The fixed coupling-index map `np.array([[1,2,4],[2,3,5],[4,5,6]]) - 1`
expanding the flattened upper-triangular entries to matrix positions. -/
def rxcMatrixFullIndex : List (List Nat) :=
  [[0, 1, 3], [1, 2, 4], [3, 4, 5]]

/-- `rxc_matrix_full_index[:n_phases, :n_phases]`. -/
def truncatedIndex (n : Nat) : List (List Nat) :=
  (rxcMatrixFullIndex.take n).map (fun row => row.take n)

/-- The flattened entry column of the line-type matrices table for one
line type (`.loc[line_types['line_type'] == t, col].values`). -/
def entriesFor (types : List LineTypeMatrixRow) (tn : String) (f : LineTypeMatrixRow → ℚ) :
    List ℚ :=
  (types.filter (fun row => row.line_type == tn)).map f

/-- One row of numpy fancy indexing `entries[index_row]`: each index is
bounds-checked (an out-of-range index raises `IndexError`, in particular
index 0 against the empty array of an unknown line type). -/
def expandRow (entries : List ℚ) : List Nat → Except BuildErr (List ℚ)
  | [] => .ok []
  | k :: ks =>
    if h : k < entries.length then
      match expandRow entries ks with
      | .error e => .error e
      | .ok vs => .ok (entries.get ⟨k, h⟩ :: vs)
    else
      .error (.indexOutOfBounds k entries.length)

/-- `entries[rxc_matrix_full_index]` (row-major). -/
def expandMat (entries : List ℚ) : List (List Nat) → Except BuildErr (List (List ℚ))
  | [] => .ok []
  | row :: rows =>
    match expandRow entries row with
    | .error e => .error e
    | .ok r =>
      match expandMat entries rows with
      | .error e => .error e
      | .ok rs => .ok (r :: rs)

/-- `base_frequency = 60.0` (fixed constant in the source). -/
def base_frequency : ℚ := 60

/-- The exact rational value of the float64 constant `np.pi`. -/
def np_pi : ℚ := 884279719003555 / 281474976710656

/-- The four line element admittance sub-matrices. -/
structure LineYs where
  y11 : List (List CQ)
  y12 : List (List CQ)
  y21 : List (List CQ)
  y22 : List (List CQ)
deriving DecidableEq, Repr

/-- The per-line admittance computation (source lines 386–451): fetch the
r/x/c entry columns for the line's type, expand them through the truncated
coupling-index map, invert `(R + jX) * length` for the series admittance,
scale `C` for the (half) shunt admittance, and form
`Y11 = Y22 = Yseries + Yshunt`, `Y12 = Y21 = -Yseries`. -/
def lineYs (types : List LineTypeMatrixRow) (line : LineData) : Except BuildErr LineYs :=
  let idx := truncatedIndex line.n_phases
  match expandMat (entriesFor types line.line_type (fun row => row.r)) idx with
  | .error e => .error e
  | .ok rMatrix =>
    match expandMat (entriesFor types line.line_type (fun row => row.x)) idx with
    | .error e => .error e
    | .ok xMatrix =>
      match expandMat (entriesFor types line.line_type (fun row => row.c)) idx with
      | .error e => .error e
      | .ok cMatrix =>
        let zMatrix := List.zipWith (List.zipWith (fun r x => (⟨r, x⟩ : CQ))) rMatrix xMatrix
        match matInv (scaleM line.length zMatrix) with
        | .error e => .error e
        | .ok seriesAdmittanceMatrix =>
          let shuntAdmittanceMatrix :=
            cMatrix.map (fun row => row.map
              (fun c =>
                (⟨0, c * 2 * np_pi * base_frequency * (1 / 1000000000) * (1 / 2) * line.length⟩ : CQ)))
          .ok
            { y11 := addM seriesAdmittanceMatrix shuntAdmittanceMatrix
              y12 := negM seriesAdmittanceMatrix
              y21 := negM seriesAdmittanceMatrix
              y22 := addM seriesAdmittanceMatrix shuntAdmittanceMatrix }

/-- A sparse accumulator matrix (`scipy.sparse.dok_matrix`), as the total
function of its entries. -/
def Mtx (α : Type) : Type := Nat → Nat → α

/-- The all-zero matrix freshly allocated for each model attribute. -/
def zeroMtx {α : Type} [Zero α] : Mtx α := fun _ _ => 0

/-- `matrix[row, col] += value`. -/
def addAt {α : Type} [Add α] (m : Mtx α) (i j : Nat) (v : α) : Mtx α :=
  fun a b => if a = i ∧ b = j then m a b + v else m a b

/-- `insert_sub_matrix` (source lines 378–382): element-by-element additive
accumulation of `sub` at the given row/column position lists; `zip`
silently truncates to the shorter of the positions and the sub-matrix. -/
def insert_sub_matrix {α : Type} [Add α] (matrix : Mtx α) (sub : List (List α))
    (row_indexes col_indexes : List Nat) : Mtx α :=
  (row_indexes.zip sub).foldl
    (fun m rs => (col_indexes.zip rs.2).foldl (fun m2 cv => addAt m2 rs.1 cv.1 cv.2) m)
    matrix

/-- `np.identity(n, dtype=np.int)`. -/
def identityZ (n : Nat) : List (List Int) :=
  (List.range n).map (fun i => (List.range n).map (fun j => if i = j then 1 else 0))

/-- The constructed `ElectricGridModel`. -/
structure ElectricGridModel where
  index : ElectricGridIndex
  node_admittance_matrix : Mtx CQ
  node_transformation_matrix : Mtx Int
  branch_admittance_1_matrix : Mtx CQ
  branch_admittance_2_matrix : Mtx CQ
  branch_incidence_1_matrix : Mtx Int
  branch_incidence_2_matrix : Mtx Int
  load_incidence_wye_matrix : Mtx ℚ
  load_incidence_delta_matrix : Mtx ℚ

/-- The model right after the sparse matrices are allocated (source lines
346–374): every matrix is entirely zero. -/
def initialModel (idx : ElectricGridIndex) : ElectricGridModel :=
  { index := idx
    node_admittance_matrix := zeroMtx
    node_transformation_matrix := zeroMtx
    branch_admittance_1_matrix := zeroMtx
    branch_admittance_2_matrix := zeroMtx
    branch_incidence_1_matrix := zeroMtx
    branch_incidence_2_matrix := zeroMtx
    load_incidence_wye_matrix := zeroMtx
    load_incidence_delta_matrix := zeroMtx }

/-- One iteration of the line loop (source lines 385–529): compute the
line's sub-matrices, resolve its node/branch position lists from the
index dictionaries (a missing key raises `KeyError`), and accumulate the
sub-matrices into the admittance and incidence matrices. -/
def processLine (idx : ElectricGridIndex) (types : List LineTypeMatrixRow)
    (m : ElectricGridModel) (line : LineData) : Except BuildErr ElectricGridModel :=
  match lineYs types line with
  | .error e => .error e
  | .ok ys =>
    match dictGet idx.node_by_node_name line.node_1_name with
    | none => .error (.keyError line.node_1_name)
    | some node_index_1 =>
      match dictGet idx.node_by_node_name line.node_2_name with
      | none => .error (.keyError line.node_2_name)
      | some node_index_2 =>
        match dictGet idx.branch_by_line_name line.line_name with
        | none => .error (.keyError line.line_name)
        | some branch_index =>
          .ok
            { m with
              node_admittance_matrix :=
                insert_sub_matrix
                  (insert_sub_matrix
                    (insert_sub_matrix
                      (insert_sub_matrix m.node_admittance_matrix
                        ys.y11 node_index_1 node_index_1)
                      ys.y12 node_index_1 node_index_2)
                    ys.y21 node_index_2 node_index_1)
                  ys.y22 node_index_2 node_index_2
              branch_admittance_1_matrix :=
                insert_sub_matrix
                  (insert_sub_matrix m.branch_admittance_1_matrix
                    ys.y11 branch_index node_index_1)
                  ys.y12 branch_index node_index_2
              branch_admittance_2_matrix :=
                insert_sub_matrix
                  (insert_sub_matrix m.branch_admittance_2_matrix
                    ys.y21 branch_index node_index_1)
                  ys.y22 branch_index node_index_2
              branch_incidence_1_matrix :=
                insert_sub_matrix m.branch_incidence_1_matrix
                  (identityZ branch_index.length) branch_index node_index_1
              branch_incidence_2_matrix :=
                insert_sub_matrix m.branch_incidence_2_matrix
                  (identityZ branch_index.length) branch_index node_index_2 }

/-- The line loop, threading the model through `processLine`; the first
raised error aborts the construction. -/
def processLines (idx : ElectricGridIndex) (types : List LineTypeMatrixRow) :
    ElectricGridModel → List LineData → Except BuildErr ElectricGridModel
  | m, [] => .ok m
  | m, l :: ls =>
    match processLine idx types m l with
    | .error e => .error e
    | .ok m2 => processLines idx types m2 ls

/-- `ElectricGridModel.__init__` for given grid data: build the index,
allocate the zero matrices, then run the line loop. -/
def buildModel (d : ElectricGridData) : Except BuildErr ElectricGridModel :=
  processLines (buildIndex d) d.electric_grid_line_types_matrices
    (initialModel (buildIndex d)) d.electric_grid_lines

/-- Grid data with no elements at all (used only as the fallback below). -/
def emptyGridData : ElectricGridData :=
  { electric_grid_nodes := []
    electric_grid_lines := []
    electric_grid_line_types_matrices := []
    electric_grid_transformers := []
    electric_grid_loads := []
    source_node_name := "" }

/-- The model of a successful construction (the fallback for a failed one
is the freshly allocated all-zero model of the empty grid). -/
def theModel (e : Except BuildErr ElectricGridModel) : ElectricGridModel :=
  match e with
  | .ok m => m
  | .error _ => initialModel (buildIndex emptyGridData)

/-- The nodal admittance matrix of a construction result. -/
def getNA (e : Except BuildErr ElectricGridModel) : Mtx CQ :=
  (theModel e).node_admittance_matrix

/-! ### Concrete grids used as test inputs -/

/-- A line-type table whose expanded r and x matrices are the 3×3 identity:
under the coupling-index map `[[0,1,3],[1,2,4],[3,4,5]]` the flattened
entry order is (1,1), (1,2), (2,2), (1,3), (2,3), (3,3), so the identity
is encoded as the entry column `[1, 0, 1, 0, 0, 1]`. -/
def diagLineTypeTable : List LineTypeMatrixRow :=
  [⟨"t", 1, 1, 0⟩, ⟨"t", 0, 0, 0⟩, ⟨"t", 1, 1, 0⟩,
   ⟨"t", 0, 0, 0⟩, ⟨"t", 0, 0, 0⟩, ⟨"t", 1, 1, 0⟩]

/-- A line-type table with the entry column `[1, 1, 1, 0, 0, 0]` for r and
x (the pattern the spec's scenario proposes as "diagonal-only"): the
expanded matrix is `[[1,1,0],[1,1,0],[0,0,0]]`, which is singular. -/
def specPatternLineTypeTable : List LineTypeMatrixRow :=
  [⟨"t", 1, 1, 0⟩, ⟨"t", 1, 1, 0⟩, ⟨"t", 1, 1, 0⟩,
   ⟨"t", 0, 0, 0⟩, ⟨"t", 0, 0, 0⟩, ⟨"t", 0, 0, 0⟩]

/-- Two 3-phase nodes joined by one 3-phase line of length 1 whose type
expands to identity r and x matrices and zero c. -/
def gridTwoNodeLine : ElectricGridData :=
  { electric_grid_nodes := [⟨"n1", 1, 1, 1⟩, ⟨"n2", 1, 1, 1⟩]
    electric_grid_lines := [⟨"l1", "t", 1, "n1", "n2", 3, 1, 1, 1⟩]
    electric_grid_line_types_matrices := diagLineTypeTable
    electric_grid_transformers := []
    electric_grid_loads := []
    source_node_name := "n1" }

/-- The same grid with the spec scenario's entry pattern `[1,1,1,0,0,0]`. -/
def gridTwoNodeLineSpecPattern : ElectricGridData :=
  { electric_grid_nodes := [⟨"n1", 1, 1, 1⟩, ⟨"n2", 1, 1, 1⟩]
    electric_grid_lines := [⟨"l1", "t", 1, "n1", "n2", 3, 1, 1, 1⟩]
    electric_grid_line_types_matrices := specPatternLineTypeTable
    electric_grid_transformers := []
    electric_grid_loads := []
    source_node_name := "n1" }

/-- Two 1-phase nodes with a single one-winding transformer (windings 1
and 2 of `t1`) between them and no lines. -/
def gridTransformerOnly : ElectricGridData :=
  { electric_grid_nodes := [⟨"n1", 1, 0, 0⟩, ⟨"n2", 1, 0, 0⟩]
    electric_grid_lines := []
    electric_grid_line_types_matrices := []
    electric_grid_transformers := [⟨"t1", 1, 1, 0, 0⟩, ⟨"t1", 2, 1, 0, 0⟩]
    electric_grid_loads := []
    source_node_name := "n1" }

/-- The diagonal series admittance block expected for `gridTwoNodeLine`:
`diag(0.5 - 0.5j)` of size 3×3. -/
def diagY11 : List (List CQ) :=
  [[⟨1/2, -1/2⟩, 0, 0], [0, ⟨1/2, -1/2⟩, 0], [0, 0, ⟨1/2, -1/2⟩]]

/-- `diag(-0.5 + 0.5j)` of size 3×3. -/
def diagY12 : List (List CQ) :=
  [[⟨-1/2, 1/2⟩, 0, 0], [0, ⟨-1/2, 1/2⟩, 0], [0, 0, ⟨-1/2, 1/2⟩]]

/-- The expected 6×6 nodal admittance matrix of `gridTwoNodeLine`, with
node 1 at positions 0, 2, 4 and node 2 at positions 1, 3, 5: the Y11/Y22
diagonals on the main diagonal and the Y12/Y21 diagonals on the
within-phase off-diagonal pairs. -/
def expectedTwoNodeLineNA : Mtx CQ := fun i j =>
  if i = j ∧ i < 6 then ⟨1/2, -1/2⟩
  else if (i / 2 = j / 2 ∧ i ≠ j) ∧ i < 6 ∧ j < 6 then ⟨-1/2, 1/2⟩
  else 0

/-! ### Claims about the index dictionaries and concrete builds -/

/-- Claim C1: the transformer-name loop of `ElectricGridIndex.__init__`
(source lines 292–300) assigns the computed position lists into
`branch_by_line_name` instead of `branch_by_transformer_name`, so after
construction `branch_by_transformer_name` still maps every transformer
name to `None` (the `dict.fromkeys` default) — here on a grid with a
single one-winding transformer `t1` whose branch-table position list is
`[0]`, which ends up under the `t1` key of `branch_by_line_name`. -/
theorem branch_by_transformer_name_stays_none :
    dictGet (buildIndex gridTransformerOnly).branch_by_transformer_name "t1" = some none
      ∧ dictGet (buildIndex gridTransformerOnly).branch_by_line_name "t1" = some [0] := by
  decide

/-- Claim C2, counterexample: with the upper-triangular entry pattern
`r = x = [1,1,1,0,0,0]` the spec's scenario proposes, the coupling-index
map expands the matrices to `[[1,1,0],[1,1,0],[0,0,0]]`, which is
singular, so `np.linalg.inv` raises `LinAlgError` and the construction
fails instead of producing the claimed diagonal blocks. -/
theorem spec_pattern_makes_construction_fail :
    buildModel gridTwoNodeLineSpecPattern = .error .singularMatrix := by
  rfl

/-- Claim C2 (amended): with the entry pattern `r = x = [1,0,1,0,0,1]` —
the encoding of the identity under the coupling-index map — and `c = 0`,
the line sub-matrices are `Y11 = Y22 = diag(0.5-0.5j)` and
`Y12 = Y21 = diag(-0.5+0.5j)`, and the constructed 6×6 nodal admittance
matrix carries exactly these blocks at the (node1,node1)/(node2,node2)
and (node1,node2)/(node2,node1) position combinations
(node 1 at positions 0, 2, 4 and node 2 at positions 1, 3, 5). -/
theorem diagonal_line_admittance_blocks :
    lineYs diagLineTypeTable ⟨"l1", "t", 1, "n1", "n2", 3, 1, 1, 1⟩ =
        .ok ⟨diagY11, diagY12, diagY12, diagY11⟩
      ∧ ∀ i j : Fin 6,
          getNA (buildModel gridTwoNodeLine) i.val j.val = expectedTwoNodeLineNA i.val j.val := by
  exact ⟨by rfl, by decide⟩

/-- Claim C5: the line loop is the only code that writes into the nodal
admittance matrix — transformers are never inserted — so on a grid whose
two nodes are joined only by a transformer the construction completes
with the admittance matrix entirely zero: both rows (and columns) of
node-phases attached to a power-delivery element are zero, contradicting
the claim that every row has a nonzero entry. -/
theorem transformer_only_grid_rows_all_zero :
    (buildModel gridTransformerOnly).isOk = true
      ∧ ∀ i j : Fin 2, getNA (buildModel gridTransformerOnly) i.val j.val = 0 := by
  decide

/-! ### Frame property of the line loop -/

theorem processLine_preserves_loads (idx : ElectricGridIndex) (types : List LineTypeMatrixRow)
    (m : ElectricGridModel) (line : LineData) (m2 : ElectricGridModel)
    (h : processLine idx types m line = .ok m2) :
    m2.load_incidence_wye_matrix = m.load_incidence_wye_matrix
      ∧ m2.load_incidence_delta_matrix = m.load_incidence_delta_matrix := by
  unfold processLine at h
  split at h
  · exact Except.noConfusion h
  split at h
  · exact Except.noConfusion h
  split at h
  · exact Except.noConfusion h
  split at h
  · exact Except.noConfusion h
  injection h with h2
  subst h2
  exact ⟨rfl, rfl⟩

theorem processLines_preserves_loads (idx : ElectricGridIndex) (types : List LineTypeMatrixRow)
    (ls : List LineData) :
    ∀ (m m2 : ElectricGridModel), processLines idx types m ls = .ok m2 →
      m2.load_incidence_wye_matrix = m.load_incidence_wye_matrix
        ∧ m2.load_incidence_delta_matrix = m.load_incidence_delta_matrix := by
  induction ls with
  | nil =>
    intro m m2 h
    unfold processLines at h
    injection h with h2
    subst h2
    exact ⟨rfl, rfl⟩
  | cons l ls ih =>
    intro m m2 h
    unfold processLines at h
    cases hp : processLine idx types m l with
    | error e => rw [hp] at h; exact absurd h (by simp)
    | ok mmid =>
      rw [hp] at h
      have h1 := processLine_preserves_loads idx types m l mmid hp
      have h2 := ih mmid m2 h
      exact ⟨h2.1.trans h1.1, h2.2.trans h1.2⟩

/-- Claim C6: the load incidence matrices are allocated all-zero (source
lines 369–374) and no later construction step writes into them — the line
loop only updates the admittance and incidence matrices — so after any
construction they are entirely zero, whatever loads the data declares. -/
theorem load_incidence_matrices_stay_zero (d : ElectricGridData) (i j : Nat) :
    (theModel (buildModel d)).load_incidence_wye_matrix i j = 0
      ∧ (theModel (buildModel d)).load_incidence_delta_matrix i j = 0 := by
  cases h : buildModel d with
  | error e => exact ⟨rfl, rfl⟩
  | ok m =>
    unfold buildModel at h
    have hp := processLines_preserves_loads (buildIndex d) d.electric_grid_line_types_matrices
      d.electric_grid_lines (initialModel (buildIndex d)) m h
    constructor
    · show m.load_incidence_wye_matrix i j = 0
      rw [hp.1]; rfl
    · show m.load_incidence_delta_matrix i j = 0
      rw [hp.2]; rfl

/-- Claim C10: the construction is a pure function of the grid data — the
only ambient input, the base frequency, is a fixed constant — so building
the index and the model twice from identical data yields identical
dimension counts, position-list dictionaries and matrices. -/
theorem construction_deterministic (d1 d2 : ElectricGridData) (h : d1 = d2) :
    buildIndex d1 = buildIndex d2 ∧ buildModel d1 = buildModel d2 := by
  subst h
  exact ⟨rfl, rfl⟩

theorem construction_deterministic_witness :
    gridTwoNodeLine = gridTwoNodeLine
      ∧ (buildIndex gridTwoNodeLine = buildIndex gridTwoNodeLine
          ∧ buildModel gridTwoNodeLine = buildModel gridTwoNodeLine) :=
  ⟨rfl, construction_deterministic gridTwoNodeLine gridTwoNodeLine rfl⟩

/-! ### Dimension counts and the flattened tables -/

/-- The schema's boolean phase-connection flags: each flag is 0 or 1. -/
def nodeFlags01 (n : NodeData) : Prop :=
  (n.is_phase_1_connected = 0 ∨ n.is_phase_1_connected = 1)
    ∧ (n.is_phase_2_connected = 0 ∨ n.is_phase_2_connected = 1)
    ∧ (n.is_phase_3_connected = 0 ∨ n.is_phase_3_connected = 1)

instance (n : NodeData) : Decidable (nodeFlags01 n) := by
  unfold nodeFlags01; infer_instance

theorem nodeDimensionOf_eq_sum_rows (ns : List NodeData) :
    nodeDimensionOf ns =
      (ns.map (fun n =>
        n.is_phase_1_connected + n.is_phase_2_connected + n.is_phase_3_connected)).sum := by
  induction ns with
  | nil => rfl
  | cons n ns ih =>
    unfold nodeDimensionOf at ih ⊢
    simp only [List.map_cons, List.sum_cons]
    omega

theorem sum_map_eq_countP {α : Type} (f : α → Nat) (ns : List α)
    (h : ∀ n ∈ ns, f n = 0 ∨ f n = 1) :
    (ns.map f).sum = ns.countP (fun n => f n == 1) := by
  induction ns with
  | nil => rfl
  | cons n ns ih =>
    have hrest : ∀ x ∈ ns, f x = 0 ∨ f x = 1 := fun x hx => h x (List.mem_cons_of_mem n hx)
    have ih2 := ih hrest
    rcases h n (List.mem_cons_self n ns) with h0 | h1
    · simp [List.countP_cons, h0, ih2]
    · simp [List.countP_cons, h1, ih2]
      omega

theorem nodeNameColumn_length (ns : List NodeData) :
    (nodeNameColumn ns).length =
      ns.countP (fun n => n.is_phase_1_connected == 1)
        + ns.countP (fun n => n.is_phase_2_connected == 1)
        + ns.countP (fun n => n.is_phase_3_connected == 1) := by
  unfold nodeNameColumn
  simp [List.countP_eq_length_filter, Nat.add_assoc]

theorem nodePhaseColumn_length (ns : List NodeData) :
    (nodePhaseColumn ns).length =
      ns.countP (fun n => n.is_phase_1_connected == 1)
        + ns.countP (fun n => n.is_phase_2_connected == 1)
        + ns.countP (fun n => n.is_phase_3_connected == 1) := by
  unfold nodePhaseColumn
  simp [Nat.add_assoc]

theorem nodesTable_length (ns : List NodeData) (src : String) :
    (nodesTableOf ns src).length =
      ns.countP (fun n => n.is_phase_1_connected == 1)
        + ns.countP (fun n => n.is_phase_2_connected == 1)
        + ns.countP (fun n => n.is_phase_3_connected == 1) := by
  unfold nodesTableOf
  rw [List.length_map, List.length_zip, nodeNameColumn_length, nodePhaseColumn_length,
    Nat.min_self]

theorem flag01_sum_eq_count {α : Type} (f : α → Nat) (ns : List α)
    (h : ∀ n ∈ ns, f n = 0 ∨ f n = 1) :
    (ns.map f).sum = ns.countP (fun n => f n == 1) :=
  sum_map_eq_countP f ns h

/-- Claim C8: `node_dimension` (the `.sum().sum()` of the three flag
columns) equals the sum over the node rows of their three flags, and —
for boolean flag data — also equals the number of rows of the flattened
node table (phase-1 rows, then phase-2 rows, then phase-3 rows). -/
theorem node_dimension_eq_flag_sum_and_table_length (d : ElectricGridData)
    (h : ∀ n ∈ d.electric_grid_nodes, nodeFlags01 n) :
    (buildIndex d).node_dimension =
        (d.electric_grid_nodes.map (fun n =>
          n.is_phase_1_connected + n.is_phase_2_connected + n.is_phase_3_connected)).sum
      ∧ (buildIndex d).node_dimension = (buildIndex d).nodes.length := by
  constructor
  · exact nodeDimensionOf_eq_sum_rows d.electric_grid_nodes
  · show nodeDimensionOf d.electric_grid_nodes =
      (nodesTableOf d.electric_grid_nodes d.source_node_name).length
    rw [nodesTable_length]
    unfold nodeDimensionOf
    rw [flag01_sum_eq_count (fun n => n.is_phase_1_connected) _ (fun n hn => (h n hn).1),
      flag01_sum_eq_count (fun n => n.is_phase_2_connected) _ (fun n hn => (h n hn).2.1),
      flag01_sum_eq_count (fun n => n.is_phase_3_connected) _ (fun n hn => (h n hn).2.2)]

/-! ### Ordering of the flattened tables (positions per phase and per
branch category) -/

theorem maskPositionsFrom_append (xs ys : List Bool) :
    ∀ k, maskPositionsFrom k (xs ++ ys) =
      maskPositionsFrom k xs ++ maskPositionsFrom (k + xs.length) ys := by
  induction xs with
  | nil => intro k; simp [maskPositionsFrom]
  | cons b bs ih =>
    intro k
    show (if b then [k] else []) ++ maskPositionsFrom (k + 1) (bs ++ ys) = _
    rw [ih (k + 1)]
    show _ = ((if b then [k] else []) ++ maskPositionsFrom (k + 1) bs)
      ++ maskPositionsFrom (k + (bs.length + 1)) ys
    rw [List.append_assoc]
    have harith : k + 1 + bs.length = k + (bs.length + 1) := by omega
    rw [harith]

theorem maskPositionsFrom_replicate_true (n : Nat) :
    ∀ k, maskPositionsFrom k (List.replicate n true) = List.range' k n := by
  induction n with
  | zero => intro k; rfl
  | succ n ih =>
    intro k
    rw [List.replicate_succ]
    show [k] ++ maskPositionsFrom (k + 1) (List.replicate n true) = _
    rw [ih (k + 1), List.range'_succ k n 1]
    rfl

theorem maskPositionsFrom_replicate_false (n : Nat) :
    ∀ k, maskPositionsFrom k (List.replicate n false) = [] := by
  induction n with
  | zero => intro k; rfl
  | succ n ih =>
    intro k
    rw [List.replicate_succ]
    show maskPositionsFrom (k + 1) (List.replicate n false) = []
    exact ih (k + 1)

theorem range'_append_one (s m n : Nat) :
    List.range' s m ++ List.range' (s + m) n = List.range' s (m + n) := by
  have h2 := List.range'_append s m n 1
  rw [Nat.one_mul] at h2
  rw [Nat.add_comm m n]
  exact h2

theorem nodesTable_phase_col (ns : List NodeData) (src : String) :
    (nodesTableOf ns src).map (fun r => r.phase) = nodePhaseColumn ns := by
  unfold nodesTableOf
  rw [List.map_map]
  have hfun : ((fun r : NodeRow => r.phase) ∘ fun p : String × String =>
      (⟨p.1, p.2, if p.1 == src then "source" else "no_source"⟩ : NodeRow)) = Prod.snd := rfl
  rw [hfun]
  apply List.map_snd_zip
  rw [nodeNameColumn_length, nodePhaseColumn_length]

theorem nodePhasePositions_eq_ranges (ns : List NodeData) (src : String) :
    nodePhasePositionsOf ns src "1" =
        List.range' 0 (ns.countP (fun n => n.is_phase_1_connected == 1))
      ∧ nodePhasePositionsOf ns src "2" =
          List.range' (ns.countP (fun n => n.is_phase_1_connected == 1))
            (ns.countP (fun n => n.is_phase_2_connected == 1))
      ∧ nodePhasePositionsOf ns src "3" =
          List.range' (ns.countP (fun n => n.is_phase_1_connected == 1)
              + ns.countP (fun n => n.is_phase_2_connected == 1))
            (ns.countP (fun n => n.is_phase_3_connected == 1)) := by
  have hcol : ∀ p : String,
      (nodesTableOf ns src).map (fun r => r.phase == p)
        = ((nodesTableOf ns src).map (fun r => r.phase)).map (fun s => s == p) := by
    intro p; rw [List.map_map]; rfl
  refine ⟨?_, ?_, ?_⟩ <;>
    · unfold nodePhasePositionsOf nonzeroPositions
      rw [hcol, nodesTable_phase_col]
      unfold nodePhaseColumn
      simp only [List.map_append, List.map_replicate]
      norm_num
      rw [maskPositionsFrom_append, maskPositionsFrom_append]
      simp [maskPositionsFrom_replicate_true, maskPositionsFrom_replicate_false]

theorem node_phase_positions_ordered (ns : List NodeData) (src : String) :
    (∀ i ∈ nodePhasePositionsOf ns src "1", ∀ j ∈ nodePhasePositionsOf ns src "2", i < j)
      ∧ (∀ i ∈ nodePhasePositionsOf ns src "2", ∀ j ∈ nodePhasePositionsOf ns src "3", i < j)
      ∧ (∀ i ∈ nodePhasePositionsOf ns src "1", ∀ j ∈ nodePhasePositionsOf ns src "3", i < j) := by
  obtain ⟨h1, h2, h3⟩ := nodePhasePositions_eq_ranges ns src
  rw [h1, h2, h3]
  refine ⟨?_, ?_, ?_⟩ <;>
    · intro i hi j hj
      rw [List.mem_range'_1] at hi hj
      omega

/-- Boolean phase flags for a line row. -/
def lineFlags01 (l : LineData) : Prop :=
  (l.is_phase_1_connected = 0 ∨ l.is_phase_1_connected = 1)
    ∧ (l.is_phase_2_connected = 0 ∨ l.is_phase_2_connected = 1)
    ∧ (l.is_phase_3_connected = 0 ∨ l.is_phase_3_connected = 1)

instance (l : LineData) : Decidable (lineFlags01 l) := by
  unfold lineFlags01; infer_instance

/-- Boolean phase flags for a transformer row. -/
def transformerFlags01 (t : TransformerData) : Prop :=
  (t.is_phase_1_connected = 0 ∨ t.is_phase_1_connected = 1)
    ∧ (t.is_phase_2_connected = 0 ∨ t.is_phase_2_connected = 1)
    ∧ (t.is_phase_3_connected = 0 ∨ t.is_phase_3_connected = 1)

instance (t : TransformerData) : Decidable (transformerFlags01 t) := by
  unfold transformerFlags01; infer_instance

theorem lineDimensionOf_eq_counts (ls : List LineData) (hl : ∀ l ∈ ls, lineFlags01 l) :
    lineDimensionOf ls =
      ls.countP (fun l => l.is_phase_1_connected == 1)
        + ls.countP (fun l => l.is_phase_2_connected == 1)
        + ls.countP (fun l => l.is_phase_3_connected == 1) := by
  unfold lineDimensionOf
  rw [flag01_sum_eq_count (fun l => l.is_phase_1_connected) _ (fun l h => (hl l h).1),
    flag01_sum_eq_count (fun l => l.is_phase_2_connected) _ (fun l h => (hl l h).2.1),
    flag01_sum_eq_count (fun l => l.is_phase_3_connected) _ (fun l h => (hl l h).2.2)]

theorem transformerDimensionOf_eq_counts (ts1 : List TransformerData)
    (ht : ∀ t ∈ ts1, transformerFlags01 t) :
    transformerDimensionOf ts1 =
      ts1.countP (fun t => t.is_phase_1_connected == 1)
        + ts1.countP (fun t => t.is_phase_2_connected == 1)
        + ts1.countP (fun t => t.is_phase_3_connected == 1) := by
  unfold transformerDimensionOf
  rw [flag01_sum_eq_count (fun t => t.is_phase_1_connected) _ (fun t h => (ht t h).1),
    flag01_sum_eq_count (fun t => t.is_phase_2_connected) _ (fun t h => (ht t h).2.1),
    flag01_sum_eq_count (fun t => t.is_phase_3_connected) _ (fun t h => (ht t h).2.2)]

theorem branchNameColumn_length (ls : List LineData) (ts1 : List TransformerData) :
    (branchNameColumn ls ts1).length =
      ls.countP (fun l => l.is_phase_1_connected == 1)
        + ls.countP (fun l => l.is_phase_2_connected == 1)
        + ls.countP (fun l => l.is_phase_3_connected == 1)
        + ts1.countP (fun t => t.is_phase_1_connected == 1)
        + ts1.countP (fun t => t.is_phase_2_connected == 1)
        + ts1.countP (fun t => t.is_phase_3_connected == 1) := by
  unfold branchNameColumn
  simp [List.countP_eq_length_filter]
  omega

theorem branchPhaseColumn_length (ls : List LineData) (ts1 : List TransformerData) :
    (branchPhaseColumn ls ts1).length =
      ls.countP (fun l => l.is_phase_1_connected == 1)
        + ls.countP (fun l => l.is_phase_2_connected == 1)
        + ls.countP (fun l => l.is_phase_3_connected == 1)
        + ts1.countP (fun t => t.is_phase_1_connected == 1)
        + ts1.countP (fun t => t.is_phase_2_connected == 1)
        + ts1.countP (fun t => t.is_phase_3_connected == 1) := by
  unfold branchPhaseColumn
  simp
  omega

theorem branchesTable_type_col (ls : List LineData) (ts1 : List TransformerData)
    (hl : ∀ l ∈ ls, lineFlags01 l) (ht : ∀ t ∈ ts1, transformerFlags01 t) :
    (branchesTableOf ls ts1).map (fun r => r.branch_type) = branchTypeColumn ls ts1 := by
  unfold branchesTableOf
  rw [List.map_map]
  have hfun : ((fun r : BranchRow => r.branch_type) ∘ fun p : (String × String) × String =>
      (⟨p.1.1, p.1.2, p.2⟩ : BranchRow)) = Prod.snd := rfl
  rw [hfun]
  apply List.map_snd_zip
  rw [List.length_zip, branchNameColumn_length, branchPhaseColumn_length, Nat.min_self]
  unfold branchTypeColumn
  rw [List.length_append, List.length_replicate, List.length_replicate,
    lineDimensionOf_eq_counts ls hl, transformerDimensionOf_eq_counts ts1 ht]
  omega

theorem branchTypePositions_eq_ranges (ls : List LineData) (ts1 : List TransformerData)
    (hl : ∀ l ∈ ls, lineFlags01 l) (ht : ∀ t ∈ ts1, transformerFlags01 t) :
    branchTypePositionsOf ls ts1 "line" = List.range' 0 (lineDimensionOf ls)
      ∧ branchTypePositionsOf ls ts1 "transformer" =
          List.range' (lineDimensionOf ls) (transformerDimensionOf ts1) := by
  have hcol : ∀ p : String,
      (branchesTableOf ls ts1).map (fun r => r.branch_type == p)
        = ((branchesTableOf ls ts1).map (fun r => r.branch_type)).map (fun s => s == p) := by
    intro p; rw [List.map_map]; rfl
  constructor <;>
    · unfold branchTypePositionsOf nonzeroPositions
      rw [hcol, branchesTable_type_col ls ts1 hl ht]
      unfold branchTypeColumn
      simp only [List.map_append, List.map_replicate]
      norm_num
      rw [maskPositionsFrom_append]
      simp [maskPositionsFrom_replicate_true, maskPositionsFrom_replicate_false]

/-- Claim C7: in the flattened node table, every phase-1 position precedes
every phase-2 position, which precedes every phase-3 position; the three
`node_by_phase` position lists concatenate to the contiguous range
`0 .. node_dimension - 1`; and in the flattened branch table every line
row precedes every one-winding transformer row. -/
theorem flattened_tables_phase_and_category_ordering (d : ElectricGridData)
    (hn : ∀ n ∈ d.electric_grid_nodes, nodeFlags01 n)
    (hl : ∀ l ∈ d.electric_grid_lines, lineFlags01 l)
    (ht : ∀ t ∈ oneWinding d.electric_grid_transformers, transformerFlags01 t) :
    (∀ i ∈ nodePhasePositionsOf d.electric_grid_nodes d.source_node_name "1",
        ∀ j ∈ nodePhasePositionsOf d.electric_grid_nodes d.source_node_name "2", i < j)
      ∧ (∀ i ∈ nodePhasePositionsOf d.electric_grid_nodes d.source_node_name "2",
          ∀ j ∈ nodePhasePositionsOf d.electric_grid_nodes d.source_node_name "3", i < j)
      ∧ (∀ i ∈ nodePhasePositionsOf d.electric_grid_nodes d.source_node_name "1",
          ∀ j ∈ nodePhasePositionsOf d.electric_grid_nodes d.source_node_name "3", i < j)
      ∧ (nodePhasePositionsOf d.electric_grid_nodes d.source_node_name "1"
            ++ nodePhasePositionsOf d.electric_grid_nodes d.source_node_name "2"
            ++ nodePhasePositionsOf d.electric_grid_nodes d.source_node_name "3"
          = List.range (buildIndex d).node_dimension)
      ∧ (∀ i ∈ branchTypePositionsOf d.electric_grid_lines
            (oneWinding d.electric_grid_transformers) "line",
          ∀ j ∈ branchTypePositionsOf d.electric_grid_lines
            (oneWinding d.electric_grid_transformers) "transformer", i < j) := by
  obtain ⟨ho1, ho2, ho3⟩ :=
    node_phase_positions_ordered d.electric_grid_nodes d.source_node_name
  refine ⟨ho1, ho2, ho3, ?_, ?_⟩
  · obtain ⟨h1, h2, h3⟩ :=
      nodePhasePositions_eq_ranges d.electric_grid_nodes d.source_node_name
    rw [h1, h2, h3, List.append_assoc,
      range'_append_one (d.electric_grid_nodes.countP (fun n => n.is_phase_1_connected == 1))
        (d.electric_grid_nodes.countP (fun n => n.is_phase_2_connected == 1))
        (d.electric_grid_nodes.countP (fun n => n.is_phase_3_connected == 1))]
    rw [show List.range'
          (d.electric_grid_nodes.countP (fun n => n.is_phase_1_connected == 1))
          (d.electric_grid_nodes.countP (fun n => n.is_phase_2_connected == 1)
            + d.electric_grid_nodes.countP (fun n => n.is_phase_3_connected == 1))
        = List.range'
            (0 + d.electric_grid_nodes.countP (fun n => n.is_phase_1_connected == 1))
            (d.electric_grid_nodes.countP (fun n => n.is_phase_2_connected == 1)
              + d.electric_grid_nodes.countP (fun n => n.is_phase_3_connected == 1))
        by rw [Nat.zero_add]]
    rw [range'_append_one, List.range_eq_range']
    congr 1
    show _ = nodeDimensionOf d.electric_grid_nodes
    unfold nodeDimensionOf
    rw [flag01_sum_eq_count (fun n => n.is_phase_1_connected) _ (fun n h => (hn n h).1),
      flag01_sum_eq_count (fun n => n.is_phase_2_connected) _ (fun n h => (hn n h).2.1),
      flag01_sum_eq_count (fun n => n.is_phase_3_connected) _ (fun n h => (hn n h).2.2)]
    omega
  · obtain ⟨hb1, hb2⟩ :=
      branchTypePositions_eq_ranges d.electric_grid_lines
        (oneWinding d.electric_grid_transformers) hl ht
    rw [hb1, hb2]
    intro i hi j hj
    rw [List.mem_range'_1] at hi hj
    omega

/-- A grid with both a line and a one-winding transformer, exercising
every conjunct of the ordering theorem. -/
def gridLineAndTransformer : ElectricGridData :=
  { electric_grid_nodes := [⟨"n1", 1, 1, 1⟩, ⟨"n2", 1, 1, 1⟩]
    electric_grid_lines := [⟨"l1", "t", 1, "n1", "n2", 3, 1, 1, 1⟩]
    electric_grid_line_types_matrices := diagLineTypeTable
    electric_grid_transformers := [⟨"t1", 1, 1, 0, 0⟩, ⟨"t1", 2, 1, 0, 0⟩]
    electric_grid_loads := []
    source_node_name := "n1" }

theorem flattened_tables_phase_and_category_ordering_witness :
    ((∀ n ∈ gridLineAndTransformer.electric_grid_nodes, nodeFlags01 n)
        ∧ (∀ l ∈ gridLineAndTransformer.electric_grid_lines, lineFlags01 l)
        ∧ (∀ t ∈ oneWinding gridLineAndTransformer.electric_grid_transformers,
            transformerFlags01 t))
      ∧ (nodePhasePositionsOf gridLineAndTransformer.electric_grid_nodes
            gridLineAndTransformer.source_node_name "1"
          ++ nodePhasePositionsOf gridLineAndTransformer.electric_grid_nodes
              gridLineAndTransformer.source_node_name "2"
          ++ nodePhasePositionsOf gridLineAndTransformer.electric_grid_nodes
              gridLineAndTransformer.source_node_name "3"
          = List.range (buildIndex gridLineAndTransformer).node_dimension)
      ∧ (∀ i ∈ branchTypePositionsOf gridLineAndTransformer.electric_grid_lines
            (oneWinding gridLineAndTransformer.electric_grid_transformers) "line",
          ∀ j ∈ branchTypePositionsOf gridLineAndTransformer.electric_grid_lines
            (oneWinding gridLineAndTransformer.electric_grid_transformers) "transformer",
          i < j) :=
  ⟨⟨by decide, by decide, by decide⟩,
    (flattened_tables_phase_and_category_ordering gridLineAndTransformer
      (by decide) (by decide) (by decide)).2.2.2.1,
    (flattened_tables_phase_and_category_ordering gridLineAndTransformer
      (by decide) (by decide) (by decide)).2.2.2.2⟩

theorem node_dimension_eq_flag_sum_and_table_length_witness :
    (∀ n ∈ gridTwoNodeLine.electric_grid_nodes, nodeFlags01 n)
      ∧ ((buildIndex gridTwoNodeLine).node_dimension =
            (gridTwoNodeLine.electric_grid_nodes.map (fun n =>
              n.is_phase_1_connected + n.is_phase_2_connected + n.is_phase_3_connected)).sum
          ∧ (buildIndex gridTwoNodeLine).node_dimension =
              (buildIndex gridTwoNodeLine).nodes.length) :=
  ⟨by decide, node_dimension_eq_flag_sum_and_table_length gridTwoNodeLine (by decide)⟩

/-! ### What failures the line loop can and cannot raise -/

/-- The conditions under which one iteration of the line loop completes:
the r/x/c entry expansion and inversion succeed and the three dictionary
lookups find their keys.  Nothing compares the line's phase count with
its type matrix dimensionality. -/
def lineOk (idx : ElectricGridIndex) (types : List LineTypeMatrixRow) (line : LineData) : Bool :=
  (lineYs types line).isOk
    && (dictGet idx.node_by_node_name line.node_1_name).isSome
    && (dictGet idx.node_by_node_name line.node_2_name).isSome
    && (dictGet idx.branch_by_line_name line.line_name).isSome

theorem processLine_isOk (idx : ElectricGridIndex) (types : List LineTypeMatrixRow)
    (m : ElectricGridModel) (line : LineData) :
    (processLine idx types m line).isOk = lineOk idx types line := by
  unfold processLine lineOk
  cases lineYs types line with
  | error e => simp [Except.isOk, Except.toBool]
  | ok ys =>
    cases dictGet idx.node_by_node_name line.node_1_name with
    | none => simp [Except.isOk, Except.toBool]
    | some n1 =>
      cases dictGet idx.node_by_node_name line.node_2_name with
      | none => simp [Except.isOk, Except.toBool]
      | some n2 =>
        cases dictGet idx.branch_by_line_name line.line_name with
        | none => simp [Except.isOk, Except.toBool]
        | some b => simp [Except.isOk, Except.toBool]

theorem processLines_isOk (idx : ElectricGridIndex) (types : List LineTypeMatrixRow)
    (ls : List LineData) :
    ∀ m : ElectricGridModel,
      (processLines idx types m ls).isOk = ls.all (fun l => lineOk idx types l) := by
  induction ls with
  | nil => intro m; rfl
  | cons l ls ih =>
    intro m
    unfold processLines
    cases hp : processLine idx types m l with
    | error e =>
      have hok := processLine_isOk idx types m l
      rw [hp] at hok
      simp [List.all_cons, ← hok, Except.isOk, Except.toBool]
    | ok m2 =>
      have hok := processLine_isOk idx types m l
      rw [hp] at hok
      rw [ih m2]
      simp [List.all_cons, ← hok, Except.isOk, Except.toBool]

/-- Two 3-phase nodes and a line all three of whose phases are connected
but whose `n_phases` is 2, so its 2×2 sub-matrices do not match its
3-entry position lists. -/
def gridPhaseMismatch : ElectricGridData :=
  { electric_grid_nodes := [⟨"n1", 1, 1, 1⟩, ⟨"n2", 1, 1, 1⟩]
    electric_grid_lines := [⟨"l1", "t", 1, "n1", "n2", 2, 1, 1, 1⟩]
    electric_grid_line_types_matrices := diagLineTypeTable
    electric_grid_transformers := []
    electric_grid_loads := []
    source_node_name := "n1" }

/-- Claim C4, counterexample: a line with 3 connected phases but a 2×2
expanded type matrix builds without any error. -/
theorem phase_count_mismatch_build_completes :
    (buildModel gridPhaseMismatch).isOk = true := by
  decide

/-- Claim C4 (amended): a phase-count mismatch is never checked —
construction succeeds exactly when every line's type-entry expansion and
inversion succeed and its dictionary lookups find their keys, and on the
mismatched grid the build completes with `zip` silently truncating the
insertion, leaving the phase-3 row of node 1 (position 4) entirely
zero. -/
theorem phase_mismatch_never_raises :
    (∀ d : ElectricGridData,
        (buildModel d).isOk
          = d.electric_grid_lines.all
              (fun l => lineOk (buildIndex d) d.electric_grid_line_types_matrices l))
      ∧ (buildModel gridPhaseMismatch).isOk = true
      ∧ ∀ j : Fin 6, getNA (buildModel gridPhaseMismatch) 4 j.val = 0 := by
  refine ⟨fun d => ?_, by decide, by decide⟩
  unfold buildModel
  exact processLines_isOk _ _ _ _

theorem expandMat_nil_entries (n : Nat) (hph : 1 ≤ n) :
    expandMat [] (truncatedIndex n) = .error (.indexOutOfBounds 0 0) := by
  cases n with
  | zero => omega
  | succ m => rfl

theorem lineYs_missing_type (types : List LineTypeMatrixRow) (line : LineData)
    (hmiss : ∀ row ∈ types, ¬row.line_type = line.line_type)
    (hph : 1 ≤ line.n_phases) :
    lineYs types line = .error (.indexOutOfBounds 0 0) := by
  have hent : entriesFor types line.line_type (fun row => row.r) = [] := by
    unfold entriesFor
    rw [List.filter_eq_nil_iff.mpr (fun row hrow => by simp [hmiss row hrow])]
    rfl
  unfold lineYs
  rw [hent]
  simp only [expandMat_nil_entries line.n_phases hph]

theorem processLines_member_fails (idx : ElectricGridIndex) (types : List LineTypeMatrixRow)
    (line : LineData) (hfail : ∀ ys, ¬lineYs types line = .ok ys) :
    ∀ (ls : List LineData) (m : ElectricGridModel), line ∈ ls →
      (processLines idx types m ls).isOk = false := by
  intro ls
  induction ls with
  | nil => intro m h; cases h
  | cons l ls ih =>
    intro m hmem
    unfold processLines
    cases hp : processLine idx types m l with
    | error e => rfl
    | ok m2 =>
      rcases List.mem_cons.mp hmem with heq | hmem2
      · subst heq
        unfold processLine at hp
        cases hy : lineYs types line with
        | error e => rw [hy] at hp; exact Except.noConfusion hp
        | ok ys => exact absurd hy (hfail ys)
      · exact ih m2 hmem2

/-- Claim C9 (amended): a line (with at least one phase dimension) whose
declared type has no row in the line-type matrices table makes the
construction raise — the empty entry array is indexed at position 0, a
numpy `IndexError` — and the error propagates, aborting the build; no
empty or default matrix is substituted.  The raised `IndexError` carries
the index and the axis size but not the element name. -/
theorem missing_line_type_aborts_build (d : ElectricGridData) (line : LineData)
    (hmem : line ∈ d.electric_grid_lines)
    (hph : 1 ≤ line.n_phases)
    (hmiss : ∀ row ∈ d.electric_grid_line_types_matrices, ¬row.line_type = line.line_type) :
    (buildModel d).isOk = false := by
  unfold buildModel
  apply processLines_member_fails _ _ line _ _ _ hmem
  intro ys hys
  rw [lineYs_missing_type _ _ hmiss hph] at hys
  exact Except.noConfusion hys

/-- A 1-phase line whose declared type `missing` has no row in the
line-type matrices table. -/
def gridMissingType : ElectricGridData :=
  { electric_grid_nodes := [⟨"n1", 1, 0, 0⟩, ⟨"n2", 1, 0, 0⟩]
    electric_grid_lines := [⟨"l1", "missing", 1, "n1", "n2", 1, 1, 0, 0⟩]
    electric_grid_line_types_matrices := [⟨"other", 1, 1, 0⟩]
    electric_grid_transformers := []
    electric_grid_loads := []
    source_node_name := "n1" }

/-- Claim C9, counterexample: the error the missing type raises is the
numpy `IndexError` `index 0 is out of bounds for axis 0 with size 0`; it
carries the offending index and the axis size only — not the element
name the claim promises. -/
theorem missing_line_type_plain_index_error :
    buildModel gridMissingType = .error (.indexOutOfBounds 0 0) := by
  rfl

theorem missing_line_type_aborts_build_witness :
    ((⟨"l1", "missing", 1, "n1", "n2", 1, 1, 0, 0⟩ : LineData)
          ∈ gridMissingType.electric_grid_lines
        ∧ 1 ≤ (1 : Nat)
        ∧ ∀ row ∈ gridMissingType.electric_grid_line_types_matrices,
            ¬row.line_type = "missing")
      ∧ (buildModel gridMissingType).isOk = false :=
  ⟨⟨by decide, by decide, by decide⟩,
    missing_line_type_aborts_build gridMissingType
      ⟨"l1", "missing", 1, "n1", "n2", 1, 1, 0, 0⟩ (by decide) (by decide) (by decide)⟩

/-! ### Additive accumulation of the nodal admittance matrix -/

theorem addAt_additive (i j : Nat) (v : CQ) (m : Mtx CQ) (a b : Nat) :
    addAt m i j v a b = m a b + addAt zeroMtx i j v a b := by
  unfold addAt zeroMtx
  by_cases hc : a = i ∧ b = j
  · simp only [hc, if_pos, and_self, ite_true]
    rw [CQ.zeroAdd]
  · simp only [hc, if_neg, ite_false]
    rw [CQ.addZero]

theorem foldl_additive {α : Type} (g : Mtx CQ → α → Mtx CQ)
    (hg : ∀ (m : Mtx CQ) (x : α) (a b : Nat), g m x a b = m a b + g zeroMtx x a b)
    (L : List α) :
    ∀ (m : Mtx CQ) (a b : Nat),
      (L.foldl g m) a b = m a b + (L.foldl g zeroMtx) a b := by
  induction L with
  | nil => intro m a b; exact (CQ.addZero (m a b)).symm
  | cons x L ih =>
    intro m a b
    show (L.foldl g (g m x)) a b = m a b + (L.foldl g (g zeroMtx x)) a b
    rw [ih (g m x) a b, ih (g zeroMtx x) a b, hg m x a b, CQ.addAssoc]

theorem insert_sub_matrix_additive (sub : List (List CQ)) (rows cols : List Nat)
    (A : Mtx CQ) (a b : Nat) :
    insert_sub_matrix A sub rows cols a b
      = A a b + insert_sub_matrix zeroMtx sub rows cols a b := by
  unfold insert_sub_matrix
  exact foldl_additive _
    (fun m rs a b =>
      foldl_additive _ (fun m2 cv a b => addAt_additive rs.1 cv.1 cv.2 m2 a b)
        (cols.zip rs.2) m a b)
    (rows.zip sub) A a b

/-- The four-insert accumulation of one line's sub-matrices into the
nodal admittance matrix (the body of the line loop at lines 465–489). -/
def insertNodeAdmittance (X : Mtx CQ) (ys : LineYs) (p q : List Nat) : Mtx CQ :=
  insert_sub_matrix
    (insert_sub_matrix (insert_sub_matrix (insert_sub_matrix X ys.y11 p p) ys.y12 p q)
      ys.y21 q p)
    ys.y22 q q

theorem insertNodeAdmittance_additive (ys : LineYs) (p q : List Nat) (X : Mtx CQ)
    (a b : Nat) :
    insertNodeAdmittance X ys p q a b
      = X a b + insertNodeAdmittance zeroMtx ys p q a b := by
  show ([(ys.y11, p, p), (ys.y12, p, q), (ys.y21, q, p), (ys.y22, q, q)].foldl
      (fun (m : Mtx CQ) (t : List (List CQ) × List Nat × List Nat) =>
        insert_sub_matrix m t.1 t.2.1 t.2.2) X) a b
    = X a b + ([(ys.y11, p, p), (ys.y12, p, q), (ys.y21, q, p), (ys.y22, q, q)].foldl
        (fun (m : Mtx CQ) (t : List (List CQ) × List Nat × List Nat) =>
          insert_sub_matrix m t.1 t.2.1 t.2.2) zeroMtx) a b
  exact foldl_additive _
    (fun (m : Mtx CQ) (t : List (List CQ) × List Nat × List Nat) (a b : Nat) =>
      insert_sub_matrix_additive t.1 t.2.1 t.2.2 m a b) _ X a b

theorem processLine_node_admittance (idx : ElectricGridIndex)
    (types : List LineTypeMatrixRow) (m m2 : ElectricGridModel) (line : LineData)
    (ys : LineYs) (n1 n2 : List Nat)
    (hy : lineYs types line = .ok ys)
    (h1 : dictGet idx.node_by_node_name line.node_1_name = some n1)
    (h2 : dictGet idx.node_by_node_name line.node_2_name = some n2)
    (hp : processLine idx types m line = .ok m2) :
    m2.node_admittance_matrix = insertNodeAdmittance m.node_admittance_matrix ys n1 n2 := by
  unfold processLine at hp
  rw [hy, h1, h2] at hp
  cases hb : dictGet idx.branch_by_line_name line.line_name with
  | none => rw [hb] at hp; exact Except.noConfusion hp
  | some bidx =>
    rw [hb] at hp
    injection hp with h
    subst h
    rfl

theorem processLines_cons (idx : ElectricGridIndex) (types : List LineTypeMatrixRow)
    (m : ElectricGridModel) (l : LineData) (ls : List LineData) :
    processLines idx types m (l :: ls)
      = match processLine idx types m l with
        | .error e => .error e
        | .ok m2 => processLines idx types m2 ls := rfl

/-- Claim C3: each line's contribution to the nodal admittance matrix is
independent of the matrix state (only `+=` accumulation touches it), so
for a grid with exactly two parallel lines every entry of the built
matrix is the arithmetic sum of the entries each line produces when built
alone — insertion adds, never overwrites. -/
theorem node_admittance_additive_for_parallel_lines (d : ElectricGridData)
    (l1 l2 : LineData)
    (hlines : d.electric_grid_lines = [l1, l2])
    (hpar : l1.node_1_name = l2.node_1_name ∧ l1.node_2_name = l2.node_2_name
      ∧ l1.is_phase_1_connected = l2.is_phase_1_connected
      ∧ l1.is_phase_2_connected = l2.is_phase_2_connected
      ∧ l1.is_phase_3_connected = l2.is_phase_3_connected)
    (hok : (buildModel d).isOk = true)
    (hok1 : (buildModel { d with electric_grid_lines := [l1] }).isOk = true)
    (hok2 : (buildModel { d with electric_grid_lines := [l2] }).isOk = true)
    (a b : Nat) :
    getNA (buildModel d) a b
      = getNA (buildModel { d with electric_grid_lines := [l1] }) a b
        + getNA (buildModel { d with electric_grid_lines := [l2] }) a b := by
  have e0 : buildModel d
      = processLines (buildIndex d) d.electric_grid_line_types_matrices
          (initialModel (buildIndex d)) [l1, l2] := by
    rw [show buildModel d
        = processLines (buildIndex d) d.electric_grid_line_types_matrices
            (initialModel (buildIndex d)) d.electric_grid_lines from rfl, hlines]
  have e1 : buildModel { d with electric_grid_lines := [l1] }
      = processLines (buildIndex { d with electric_grid_lines := [l1] })
          d.electric_grid_line_types_matrices
          (initialModel (buildIndex { d with electric_grid_lines := [l1] })) [l1] := rfl
  have e2 : buildModel { d with electric_grid_lines := [l2] }
      = processLines (buildIndex { d with electric_grid_lines := [l2] })
          d.electric_grid_line_types_matrices
          (initialModel (buildIndex { d with electric_grid_lines := [l2] })) [l2] := rfl
  have hnn1 : (buildIndex { d with electric_grid_lines := [l1] }).node_by_node_name
      = (buildIndex d).node_by_node_name := rfl
  have hnn2 : (buildIndex { d with electric_grid_lines := [l2] }).node_by_node_name
      = (buildIndex d).node_by_node_name := rfl
  -- extract the component successes of the two lines from the three builds
  rw [e0] at hok
  rw [processLines_isOk] at hok
  simp only [List.all_cons, List.all_nil, Bool.and_eq_true, Bool.and_true] at hok
  obtain ⟨hok_l1, hok_l2⟩ := hok
  unfold lineOk at hok_l1 hok_l2
  simp only [Bool.and_eq_true] at hok_l1 hok_l2
  obtain ⟨⟨⟨hys1, hs11⟩, hs12⟩, hbs1⟩ := hok_l1
  obtain ⟨⟨⟨hys2, hs21⟩, hs22⟩, hbs2⟩ := hok_l2
  obtain ⟨n11, hn11⟩ := Option.isSome_iff_exists.mp hs11
  obtain ⟨n12, hn12⟩ := Option.isSome_iff_exists.mp hs12
  obtain ⟨n21, hn21⟩ := Option.isSome_iff_exists.mp hs21
  obtain ⟨n22, hn22⟩ := Option.isSome_iff_exists.mp hs22
  cases hy1 : lineYs d.electric_grid_line_types_matrices l1 with
  | error e => rw [hy1] at hys1; exact absurd hys1 (by simp [Except.isOk, Except.toBool])
  | ok ys1 =>
  cases hy2 : lineYs d.electric_grid_line_types_matrices l2 with
  | error e => rw [hy2] at hys2; exact absurd hys2 (by simp [Except.isOk, Except.toBool])
  | ok ys2 =>
  -- run the two-line build
  cases hq1 : processLine (buildIndex d) d.electric_grid_line_types_matrices
      (initialModel (buildIndex d)) l1 with
  | error e =>
    have hco := processLine_isOk (buildIndex d) d.electric_grid_line_types_matrices
      (initialModel (buildIndex d)) l1
    rw [hq1] at hco
    unfold lineOk at hco
    rw [hys1, hs11, hs12, hbs1] at hco
    simp [Except.isOk, Except.toBool] at hco
  | ok mA =>
  cases hq2 : processLine (buildIndex d) d.electric_grid_line_types_matrices mA l2 with
  | error e =>
    have hco := processLine_isOk (buildIndex d) d.electric_grid_line_types_matrices mA l2
    rw [hq2] at hco
    unfold lineOk at hco
    rw [hys2, hs21, hs22, hbs2] at hco
    simp [Except.isOk, Except.toBool] at hco
  | ok mB =>
  have ed : buildModel d = .ok mB := by
    rw [e0, processLines_cons, hq1]
    show processLines (buildIndex d) d.electric_grid_line_types_matrices mA [l2]
      = Except.ok mB
    rw [processLines_cons, hq2]
    rfl
  -- run the two single-line builds
  cases hq1s : processLine (buildIndex { d with electric_grid_lines := [l1] })
      d.electric_grid_line_types_matrices
      (initialModel (buildIndex { d with electric_grid_lines := [l1] })) l1 with
  | error e =>
    rw [e1, processLines_cons, hq1s] at hok1
    exact absurd hok1 (by simp [Except.isOk, Except.toBool])
  | ok mC =>
  cases hq2s : processLine (buildIndex { d with electric_grid_lines := [l2] })
      d.electric_grid_line_types_matrices
      (initialModel (buildIndex { d with electric_grid_lines := [l2] })) l2 with
  | error e =>
    rw [e2, processLines_cons, hq2s] at hok2
    exact absurd hok2 (by simp [Except.isOk, Except.toBool])
  | ok mD =>
  have ed1 : buildModel { d with electric_grid_lines := [l1] } = .ok mC := by
    rw [e1, processLines_cons, hq1s]
    rfl
  have ed2 : buildModel { d with electric_grid_lines := [l2] } = .ok mD := by
    rw [e2, processLines_cons, hq2s]
    rfl
  -- express the four node admittance matrices
  have hA := processLine_node_admittance _ _ _ _ _ _ _ _ hy1 hn11 hn12 hq1
  have hB := processLine_node_admittance _ _ _ _ _ _ _ _ hy2 hn21 hn22 hq2
  have hC := processLine_node_admittance _ _ _ _ _ _ _ _ hy1 (hnn1 ▸ hn11) (hnn1 ▸ hn12) hq1s
  have hD := processLine_node_admittance _ _ _ _ _ _ _ _ hy2 (hnn2 ▸ hn21) (hnn2 ▸ hn22) hq2s
  rw [ed, ed1, ed2]
  show mB.node_admittance_matrix a b
    = mC.node_admittance_matrix a b + mD.node_admittance_matrix a b
  rw [hB, hA, hC, hD]
  show insertNodeAdmittance (insertNodeAdmittance zeroMtx ys1 n11 n12) ys2 n21 n22 a b
    = insertNodeAdmittance zeroMtx ys1 n11 n12 a b
      + insertNodeAdmittance zeroMtx ys2 n21 n22 a b
  rw [insertNodeAdmittance_additive ys2 n21 n22]

/-- The two parallel lines of the witness grid. -/
def parallelLineA : LineData := ⟨"la", "t", 1, "n1", "n2", 3, 1, 1, 1⟩

def parallelLineB : LineData := ⟨"lb", "t", 1, "n1", "n2", 3, 1, 1, 1⟩

/-- Two identical-endpoint 3-phase lines between the same node pair. -/
def gridParallelLines : ElectricGridData :=
  { electric_grid_nodes := [⟨"n1", 1, 1, 1⟩, ⟨"n2", 1, 1, 1⟩]
    electric_grid_lines := [parallelLineA, parallelLineB]
    electric_grid_line_types_matrices := diagLineTypeTable
    electric_grid_transformers := []
    electric_grid_loads := []
    source_node_name := "n1" }

theorem node_admittance_additive_for_parallel_lines_witness :
    (gridParallelLines.electric_grid_lines = [parallelLineA, parallelLineB]
        ∧ (buildModel gridParallelLines).isOk = true
        ∧ (buildModel { gridParallelLines with
            electric_grid_lines := [parallelLineA] }).isOk = true
        ∧ (buildModel { gridParallelLines with
            electric_grid_lines := [parallelLineB] }).isOk = true)
      ∧ getNA (buildModel gridParallelLines) 0 0
          = getNA (buildModel { gridParallelLines with
              electric_grid_lines := [parallelLineA] }) 0 0
            + getNA (buildModel { gridParallelLines with
                electric_grid_lines := [parallelLineB] }) 0 0 :=
  ⟨⟨rfl, by decide, by decide, by decide⟩,
    node_admittance_additive_for_parallel_lines gridParallelLines parallelLineA parallelLineB
      rfl ⟨rfl, rfl, rfl, rfl, rfl⟩ (by decide) (by decide) (by decide) 0 0⟩

end Fledge
